import Mathlib

/-!
Verification of the object identity cache and arena-lifetime bridge of the
protobuf Python glue (`src/python/protobuf.c`).

The cache glue in `protobuf.c` is written over the upb integer table
(`upb_inttable`) and upb arenas, whose implementations are not part of this
fragment; those collaborators are modelled from the spec (each such
definition says so in its doc comment).  Everything else is translated
directly from `protobuf.c`.  Assertion failures ("internal consistency
violations", abort-class) are modelled by `Option`: `none` means the
operation halted at an assertion instead of returning.
-/

namespace Protobuf

/-- A native address / host object reference used as an opaque integer key;
`0` models `NULL`. -/
abbrev Ptr := Nat

/-- Modelled from the spec: the upb integer-keyed table `upb_inttable`, whose
implementation is outside this fragment.  The spec describes the cache as "a
hash table keyed by raw address value" mapping each key to one value; the set
of live entries is represented as an association list (most recently inserted
first). -/
structure upb_inttable where
  entries : List (Ptr × Ptr)
deriving DecidableEq

/-- Modelled from the spec: `upb_inttable_init` produces an empty table
("initializes the empty cache table"). -/
def upb_inttable_init : upb_inttable := ⟨[]⟩

/-- Modelled from the spec: `upb_inttable_lookup` returns the value stored for
`key`, or nothing on a miss. -/
def upb_inttable_lookup (t : upb_inttable) (key : Ptr) : Option Ptr :=
  (t.entries.find? (fun e => e.1 == key)).map (fun e => e.2)

/-- Modelled from the spec: `upb_inttable_insert` stores `key → val`.  Its
precondition is that no live entry exists for `key`; per the spec a violation
"is a programmer error, not a recoverable condition" and "must not silently
overwrite", so it is an assert-class halt, modelled as `none`. -/
def upb_inttable_insert (t : upb_inttable) (key val : Ptr) : Option upb_inttable :=
  match upb_inttable_lookup t key with
  | some _ => none
  | none => some ⟨(key, val) :: t.entries⟩

/-- Modelled from the spec: `upb_inttable_remove` removes the entry for `key`
when one exists, writing its value to the out-parameter and reporting whether
it was found; on a miss the table is unchanged and the out-parameter is left
unwritten (the indeterminate value is determinized to `none`, i.e. `NULL`).
Result: (found, out-value, updated table). -/
def upb_inttable_remove (t : upb_inttable) (key : Ptr) :
    Bool × Option Ptr × upb_inttable :=
  match upb_inttable_lookup t key with
  | some v => (true, some v, ⟨t.entries.eraseP (fun e => e.1 == key)⟩)
  | none => (false, none, t)

/-- `upb_value_getptr` read on a possibly-unwritten `upb_value`. -/
def upb_value_getptr (v : Option Ptr) : Ptr := v.getD 0

/-- `PyUpb_ModuleState` (protobuf.h / protobuf.c): the per-module singleton
holding the object cache table and the dedicated arena backing its storage. -/
structure PyUpb_ModuleState where
  obj_cache : upb_inttable
  obj_cache_arena : Ptr
deriving DecidableEq

/-- The host runtime as the cache operations observe it: the module-state
singleton plus the reference counts of host objects (reference counting is a
collaborator facility of the host object model). Reference counts are an
association list object → count, most recent update first. -/
structure PyRuntime where
  state : PyUpb_ModuleState
  refcnt : List (Ptr × Nat)
deriving DecidableEq

/-- Read an object's reference count (objects never counted are at 0). -/
def getRefcnt (rt : PyRuntime) (o : Ptr) : Nat :=
  ((rt.refcnt.find? (fun e => e.1 == o)).map (fun e => e.2)).getD 0

/-- `Py_INCREF`: increment one object's reference count, modelled from the
spec's host-object-model interface ("increment/decrement reference count"). -/
def Py_INCREF (rt : PyRuntime) (o : Ptr) : PyRuntime :=
  { rt with refcnt := (o, getRefcnt rt o + 1) :: rt.refcnt }

/-- `PyUpb_ObjCache_Add` (protobuf.c:69): inserts `key → py_obj` into the
module state's table, allocating the slot from the cache arena.  `none`
models the internal-consistency assertion firing inside the insert. -/
def PyUpb_ObjCache_Add (rt : PyRuntime) (key py_obj : Ptr) : Option PyRuntime :=
  match upb_inttable_insert rt.state.obj_cache key py_obj with
  | some t => some { rt with state := { rt.state with obj_cache := t } }
  | none => none

/-- `PyUpb_ObjCache_Delete` (protobuf.c:75): removes the entry for `key` and
then asserts that the removed value is a non-NULL object
(`assert(upb_value_getptr(val))`); `none` models the assertion firing. -/
def PyUpb_ObjCache_Delete (rt : PyRuntime) (key : Ptr) : Option PyRuntime :=
  let r := upb_inttable_remove rt.state.obj_cache key
  if upb_value_getptr r.2.1 ≠ 0 then
    some { rt with state := { rt.state with obj_cache := r.2.2 } }
  else none

/-- `PyUpb_ObjCache_Get` (protobuf.c:82): looks `key` up; on a hit increments
the cached wrapper's reference count and returns it, on a miss returns `NULL`
(`none`) and changes nothing. -/
def PyUpb_ObjCache_Get (rt : PyRuntime) (key : Ptr) : Option Ptr × PyRuntime :=
  match upb_inttable_lookup rt.state.obj_cache key with
  | some v => (some v, Py_INCREF rt v)
  | none => (none, rt)

/-- One externally invokable cache operation. -/
inductive CacheOp where
  | add (key obj : Ptr)
  | remove (key : Ptr)
  | get (key : Ptr)
deriving DecidableEq

/-- Run one cache operation; `none` propagates an assert-class halt. -/
def applyOp (rt : PyRuntime) : CacheOp → Option PyRuntime
  | .add k o => PyUpb_ObjCache_Add rt k o
  | .remove k => PyUpb_ObjCache_Delete rt k
  | .get k => some (PyUpb_ObjCache_Get rt k).2

/-- Run a sequence of cache operations; `some rt` means every operation met
its precondition (no assertion fired) and ended in state `rt`. -/
def runOps (rt : PyRuntime) : List CacheOp → Option PyRuntime
  | [] => some rt
  | op :: ops =>
    match applyOp rt op with
    | some rt1 => runOps rt1 ops
    | none => none

/-- The runtime state right after `PyInit__message` set up the cache: an empty
table over the freshly allocated cache arena, no wrappers alive. -/
def initRuntime : PyRuntime :=
  { state := { obj_cache := upb_inttable_init, obj_cache_arena := 1 }, refcnt := [] }

/-- The cache invariant: each native address appears as a key at most once. -/
def cacheKeysUnique (t : upb_inttable) : Prop :=
  (t.entries.map Prod.fst).Nodup

/-! ### Arena allocator, module lifecycle, forbidden constructor -/

/-- Modelled from the spec: the state of the native arena allocator.  `next`
is the next fresh arena handle; `freed` records every `upb_arena_free` call,
with multiplicity, so a double-free would be visible as a count above one. -/
structure ArenaWorld where
  next : Nat
  freed : List Nat
deriving DecidableEq

/-- Modelled from the spec: `upb_arena_new` creates a fresh native arena
("create-arena") and returns its handle. -/
def upb_arena_new (w : ArenaWorld) : Nat × ArenaWorld :=
  (w.next, { w with next := w.next + 1 })

/-- Modelled from the spec: `upb_arena_free` destroys an arena, invalidating
every object allocated from it ("free-arena"). -/
def upb_arena_free (w : ArenaWorld) (a : Nat) : ArenaWorld :=
  { w with freed := a :: w.freed }

/-- `PyUpb_Arena` (protobuf.c:98): the wrapper object, holding the native
arena handle it owns. -/
structure PyUpb_Arena where
  arena : Nat
deriving DecidableEq

/-- `PyUpb_Arena_Get` (protobuf.c:114): reads the owned arena handle. -/
def PyUpb_Arena_Get (self : PyUpb_Arena) : Nat := self.arena

/-- `PyUpb_Arena_New` (protobuf.c:102): allocates the wrapper object and
stores a freshly created native arena in it. -/
def PyUpb_Arena_New (w : ArenaWorld) : PyUpb_Arena × ArenaWorld :=
  let r := upb_arena_new w
  (⟨r.1⟩, r.2)

/-- `PyUpb_Arena_Dealloc` (protobuf.c:109): frees the owned arena, then the
wrapper's own storage. -/
def PyUpb_Arena_Dealloc (w : ArenaWorld) (self : PyUpb_Arena) : ArenaWorld :=
  upb_arena_free w (PyUpb_Arena_Get self)

/-- `PyUpb_ModuleDealloc` (protobuf.c:34): frees the module state's dedicated
cache-storage arena. -/
def PyUpb_ModuleDealloc (w : ArenaWorld) (s : PyUpb_ModuleState) : ArenaWorld :=
  upb_arena_free w s.obj_cache_arena

/-- Success or failure of the four wrapper-type registration steps invoked by
`PyInit__message` (protobuf.c:194). -/
structure InitResults where
  descriptorContainers : Bool
  descriptorPool : Bool
  descriptor : Bool
  arena : Bool
deriving DecidableEq

/-- `PyInit__message` (protobuf.c:186): creates the module, allocates the
dedicated cache arena and initializes the empty table over it, then runs the
registration steps; if any step fails, the module reference is dropped, which
runs `PyUpb_ModuleDealloc` (freeing the cache arena), and `NULL` (`none`) is
returned instead of the module. -/
def PyInit__message (w : ArenaWorld) (inits : InitResults) :
    Option PyUpb_ModuleState × ArenaWorld :=
  let r := upb_arena_new w
  let state : PyUpb_ModuleState :=
    { obj_cache := upb_inttable_init, obj_cache_arena := r.1 }
  if inits.descriptorContainers && inits.descriptorPool &&
      inits.descriptor && inits.arena then
    (some state, r.2)
  else
    (none, PyUpb_ModuleDealloc r.2 state)

/-- A host class object as `PyUpb_Forbidden_New` sees it: something with a
`__name__`. -/
structure PyClass where
  name : String
deriving DecidableEq

/-- The host error indicator, set by `PyErr_Format` (host facility
"raise-a-host-exception-with-message"). -/
structure PyErrState where
  raised : Option String
deriving DecidableEq

/-- `PyErr_Format(PyExc_RuntimeError, ...)`: records the formatted message in
the error indicator. -/
def PyErr_Format (msg : String) : PyErrState := { raised := some msg }

/-- `PyUpb_Forbidden_New` (protobuf.c:174): reads the class's `__name__`,
raises a `RuntimeError` naming it, and returns `NULL`.  The runtime state is
threaded through untouched: the source function never reads or writes it. -/
def PyUpb_Forbidden_New (rt : PyRuntime) (cls : PyClass)
    (args kwds : List Ptr) : Option Ptr × PyErrState × PyRuntime :=
  let name := cls.name
  (none,
   PyErr_Format ("Objects of type " ++ name ++ " may not be created directly."),
   rt)

/-! ### Basic lookup lemmas -/

theorem lookup_cons_self (k v : Ptr) (es : List (Ptr × Ptr)) :
    upb_inttable_lookup ⟨(k, v) :: es⟩ k = some v := by
  simp [upb_inttable_lookup]

theorem lookup_cons_ne (k j v : Ptr) (es : List (Ptr × Ptr)) (h : j ≠ k) :
    upb_inttable_lookup ⟨(j, v) :: es⟩ k = upb_inttable_lookup ⟨es⟩ k := by
  have hb : (j == k) = false := by simp [h]
  simp [upb_inttable_lookup, hb]

theorem lookup_none_iff (t : upb_inttable) (k : Ptr) :
    upb_inttable_lookup t k = none ↔ ∀ e ∈ t.entries, e.1 ≠ k := by
  simp [upb_inttable_lookup, List.find?_eq_none]

/-- Erasing by a predicate disjoint from the search predicate does not change
the result of `find?`. -/
theorem find?_eraseP_eq {α : Type} (p q : α → Bool) (l : List α)
    (h : ∀ a, p a = true → q a = false) :
    (l.eraseP q).find? p = l.find? p := by
  induction l with
  | nil => rfl
  | cons a l ih =>
    by_cases hq : q a = true
    · rw [List.eraseP_cons_of_pos hq]
      have hp : p a = false := by
        cases hpa : p a
        · rfl
        · have := h a hpa
          rw [this] at hq
          exact absurd hq (by simp)
      rw [List.find?_cons_of_neg _ (by simp [hp])]
    · rw [List.eraseP_cons_of_neg (by simpa using hq)]
      cases hpa : p a
      · rw [List.find?_cons_of_neg _ (by simp [hpa]),
          List.find?_cons_of_neg _ (by simp [hpa]), ih]
      · rw [List.find?_cons_of_pos _ hpa, List.find?_cons_of_pos _ hpa]

/-- Removing one key leaves lookups of a different key unchanged. -/
theorem lookup_eraseP_ne (es : List (Ptr × Ptr)) (k j : Ptr) (h : j ≠ k) :
    upb_inttable_lookup ⟨es.eraseP (fun e => e.1 == j)⟩ k =
      upb_inttable_lookup ⟨es⟩ k := by
  unfold upb_inttable_lookup
  rw [find?_eraseP_eq]
  intro a ha
  have : a.1 = k := by simpa using ha
  simp [this, h.symm]

/-- Under unique keys, erasing the entry for `k` makes lookup of `k` miss. -/
theorem lookup_eraseP_self_of_nodup (es : List (Ptr × Ptr)) (k : Ptr)
    (hnd : (es.map Prod.fst).Nodup) :
    upb_inttable_lookup ⟨es.eraseP (fun e => e.1 == k)⟩ k = none := by
  induction es with
  | nil => rfl
  | cons a es ih =>
    rw [List.map_cons, List.nodup_cons] at hnd
    by_cases ha : a.1 = k
    · rw [List.eraseP_cons_of_pos (by simp [ha])]
      rw [lookup_none_iff]
      intro e he hek
      exact hnd.1 (ha ▸ hek ▸ List.mem_map_of_mem Prod.fst he)
    · rw [List.eraseP_cons_of_neg (by simp [ha])]
      rw [lookup_cons_ne _ _ _ _ ha, ih hnd.2]

/-! ### Characterizations of the three cache operations -/

theorem add_eq_some_iff (rt : PyRuntime) (k o : Ptr) (rt1 : PyRuntime) :
    PyUpb_ObjCache_Add rt k o = some rt1 ↔
      upb_inttable_lookup rt.state.obj_cache k = none ∧
      rt1 = { rt with state := { rt.state with
                obj_cache := ⟨(k, o) :: rt.state.obj_cache.entries⟩ } } := by
  unfold PyUpb_ObjCache_Add upb_inttable_insert
  cases h : upb_inttable_lookup rt.state.obj_cache k <;>
    simp [h, eq_comm]

theorem delete_eq_some_iff (rt : PyRuntime) (k : Ptr) (rt1 : PyRuntime) :
    PyUpb_ObjCache_Delete rt k = some rt1 ↔
      ∃ v, upb_inttable_lookup rt.state.obj_cache k = some v ∧ v ≠ 0 ∧
        rt1 = { rt with state := { rt.state with
                  obj_cache :=
                    ⟨rt.state.obj_cache.entries.eraseP (fun e => e.1 == k)⟩ } } := by
  unfold PyUpb_ObjCache_Delete upb_inttable_remove
  cases h : upb_inttable_lookup rt.state.obj_cache k with
  | none => simp [h, upb_value_getptr]
  | some v =>
    by_cases hv : v = 0 <;> simp [h, hv, upb_value_getptr, eq_comm]

theorem get_hit (rt : PyRuntime) (k v : Ptr)
    (h : upb_inttable_lookup rt.state.obj_cache k = some v) :
    PyUpb_ObjCache_Get rt k = (some v, Py_INCREF rt v) := by
  unfold PyUpb_ObjCache_Get
  rw [h]

theorem get_miss (rt : PyRuntime) (k : Ptr)
    (h : upb_inttable_lookup rt.state.obj_cache k = none) :
    PyUpb_ObjCache_Get rt k = (none, rt) := by
  unfold PyUpb_ObjCache_Get
  rw [h]

theorem get_snd_state (rt : PyRuntime) (k : Ptr) :
    (PyUpb_ObjCache_Get rt k).2.state = rt.state := by
  unfold PyUpb_ObjCache_Get
  cases h : upb_inttable_lookup rt.state.obj_cache k <;> simp [Py_INCREF]

/-! ### The key-uniqueness invariant is preserved by every operation -/

theorem applyOp_preserves_unique (rt rt1 : PyRuntime) (op : CacheOp)
    (hinv : cacheKeysUnique rt.state.obj_cache)
    (h : applyOp rt op = some rt1) :
    cacheKeysUnique rt1.state.obj_cache := by
  cases op with
  | add k o =>
    rw [applyOp, add_eq_some_iff] at h
    obtain ⟨hnone, rfl⟩ := h
    unfold cacheKeysUnique at hinv ⊢
    simp only [List.map_cons, List.nodup_cons]
    refine ⟨?_, hinv⟩
    intro hk
    obtain ⟨e, he, hek⟩ := List.mem_map.mp hk
    exact (lookup_none_iff _ _).mp hnone e he hek
  | remove k =>
    rw [applyOp, delete_eq_some_iff] at h
    obtain ⟨v, _, _, rfl⟩ := h
    unfold cacheKeysUnique at hinv ⊢
    exact hinv.sublist ((List.eraseP_sublist _).map Prod.fst)
  | get k =>
    rw [applyOp, Option.some_inj] at h
    subst h
    unfold cacheKeysUnique
    rw [get_snd_state]
    exact hinv

theorem runOps_preserves_unique (ops : List CacheOp) (rt rt1 : PyRuntime)
    (hinv : cacheKeysUnique rt.state.obj_cache)
    (h : runOps rt ops = some rt1) :
    cacheKeysUnique rt1.state.obj_cache := by
  induction ops generalizing rt with
  | nil => cases h; exact hinv
  | cons op ops ih =>
    rw [runOps] at h
    cases hop : applyOp rt op with
    | none => rw [hop] at h; cases h
    | some rt2 =>
      rw [hop] at h
      exact ih rt2 (applyOp_preserves_unique rt rt2 op hinv hop) h

/-! ### Lookup preservation along operation sequences -/

theorem applyOp_preserves_lookup_some (rt rt1 : PyRuntime) (op : CacheOp)
    (k w : Ptr)
    (hk : upb_inttable_lookup rt.state.obj_cache k = some w)
    (hop : applyOp rt op = some rt1)
    (hnr : op ≠ CacheOp.remove k) :
    upb_inttable_lookup rt1.state.obj_cache k = some w := by
  cases op with
  | add j o =>
    rw [applyOp, add_eq_some_iff] at hop
    obtain ⟨hnone, rfl⟩ := hop
    have hjk : j ≠ k := by
      intro he
      rw [he, hk] at hnone
      cases hnone
    show upb_inttable_lookup ⟨(j, o) :: rt.state.obj_cache.entries⟩ k = some w
    rw [lookup_cons_ne _ _ _ _ hjk]
    exact hk
  | remove j =>
    rw [applyOp, delete_eq_some_iff] at hop
    obtain ⟨v, hv, hv0, rfl⟩ := hop
    have hjk : j ≠ k := by
      intro he
      exact hnr (by rw [he])
    show upb_inttable_lookup
        ⟨rt.state.obj_cache.entries.eraseP (fun e => e.1 == j)⟩ k = some w
    rw [lookup_eraseP_ne _ _ _ hjk]
    exact hk
  | get j =>
    rw [applyOp, Option.some_inj] at hop
    subst hop
    rw [show (PyUpb_ObjCache_Get rt j).2.state = rt.state from get_snd_state rt j]
    exact hk

theorem applyOp_preserves_lookup_none (rt rt1 : PyRuntime) (op : CacheOp)
    (k : Ptr)
    (hk : upb_inttable_lookup rt.state.obj_cache k = none)
    (hop : applyOp rt op = some rt1)
    (hna : ∀ w, op ≠ CacheOp.add k w) :
    upb_inttable_lookup rt1.state.obj_cache k = none := by
  cases op with
  | add j o =>
    rw [applyOp, add_eq_some_iff] at hop
    obtain ⟨hnone, rfl⟩ := hop
    have hjk : j ≠ k := by
      intro he
      exact hna o (by rw [he])
    show upb_inttable_lookup ⟨(j, o) :: rt.state.obj_cache.entries⟩ k = none
    rw [lookup_cons_ne _ _ _ _ hjk]
    exact hk
  | remove j =>
    rw [applyOp, delete_eq_some_iff] at hop
    obtain ⟨v, hv, hv0, rfl⟩ := hop
    have hjk : j ≠ k := by
      intro he
      rw [he, hk] at hv
      cases hv
    show upb_inttable_lookup
        ⟨rt.state.obj_cache.entries.eraseP (fun e => e.1 == j)⟩ k = none
    rw [lookup_eraseP_ne _ _ _ hjk]
    exact hk
  | get j =>
    rw [applyOp, Option.some_inj] at hop
    subst hop
    rw [show (PyUpb_ObjCache_Get rt j).2.state = rt.state from get_snd_state rt j]
    exact hk

theorem runOps_preserves_lookup_some (ops : List CacheOp) (rt rt1 : PyRuntime)
    (k w : Ptr)
    (hk : upb_inttable_lookup rt.state.obj_cache k = some w)
    (hrun : runOps rt ops = some rt1)
    (hnr : CacheOp.remove k ∉ ops) :
    upb_inttable_lookup rt1.state.obj_cache k = some w := by
  induction ops generalizing rt with
  | nil => cases hrun; exact hk
  | cons op ops ih =>
    rw [runOps] at hrun
    cases hop : applyOp rt op with
    | none => rw [hop] at hrun; cases hrun
    | some rt2 =>
      rw [hop] at hrun
      have hop_ne : op ≠ CacheOp.remove k := fun he => hnr (he ▸ List.mem_cons_self op ops)
      exact ih rt2
        (applyOp_preserves_lookup_some rt rt2 op k w hk hop hop_ne)
        hrun (fun hmem => hnr (List.mem_cons_of_mem op hmem))

theorem runOps_preserves_lookup_none (ops : List CacheOp) (rt rt1 : PyRuntime)
    (k : Ptr)
    (hk : upb_inttable_lookup rt.state.obj_cache k = none)
    (hrun : runOps rt ops = some rt1)
    (hna : ∀ w, CacheOp.add k w ∉ ops) :
    upb_inttable_lookup rt1.state.obj_cache k = none := by
  induction ops generalizing rt with
  | nil => cases hrun; exact hk
  | cons op ops ih =>
    rw [runOps] at hrun
    cases hop : applyOp rt op with
    | none => rw [hop] at hrun; cases hrun
    | some rt2 =>
      rw [hop] at hrun
      have hop_ne : ∀ w, op ≠ CacheOp.add k w :=
        fun o he => hna o (he ▸ List.mem_cons_self op ops)
      exact ih rt2
        (applyOp_preserves_lookup_none rt rt2 op k hk hop hop_ne)
        hrun (fun o hmem => hna o (List.mem_cons_of_mem op hmem))

/-! ### Claim theorems -/

/-- C1: Cache identity uniqueness — in every cache state reachable from the
freshly initialized runtime by Add/Remove/Get calls that all satisfy their
preconditions (no assertion fires), the mapping relates each native address
key to at most one wrapper: the key list is duplicate-free and at most one
entry exists per key. -/
theorem objCache_identity_uniqueness (ops : List CacheOp) (rt : PyRuntime)
    (h : runOps initRuntime ops = some rt) :
    cacheKeysUnique rt.state.obj_cache ∧
      ∀ k : Ptr, rt.state.obj_cache.entries.countP (fun e => e.1 == k) ≤ 1 := by
  have hu := runOps_preserves_unique ops initRuntime rt
    (by simp [cacheKeysUnique, initRuntime, upb_inttable_init]) h
  refine ⟨hu, fun k => ?_⟩
  have h2 := List.nodup_iff_count_le_one.mp hu k
  have h3 : (rt.state.obj_cache.entries.map Prod.fst).count k
      = rt.state.obj_cache.entries.countP (fun e => e.1 == k) := by
    rw [List.count, List.countP_map]
    rfl
  rw [h3] at h2
  exact h2

/-- Witness for C1: a concrete successful trace reaching a concrete state. -/
theorem objCache_identity_uniqueness_witness :
    cacheKeysUnique
      ({ state := { obj_cache := ⟨[(32, 200)]⟩, obj_cache_arena := 1 },
         refcnt := [(100, 1)] } : PyRuntime).state.obj_cache :=
  (objCache_identity_uniqueness
    [.add 16 100, .get 16, .add 32 200, .remove 16]
    { state := { obj_cache := ⟨[(32, 200)]⟩, obj_cache_arena := 1 },
      refcnt := [(100, 1)] }
    (by decide)).1

/-- C2: Get contract — on a hit, `PyUpb_ObjCache_Get` returns the cached
wrapper with its reference count incremented exactly once (all other counts
unchanged); on a miss it returns `NULL` and changes nothing at all. -/
theorem objCache_get_contract (rt : PyRuntime) (k : Ptr) :
    (∀ w, upb_inttable_lookup rt.state.obj_cache k = some w →
        (PyUpb_ObjCache_Get rt k).1 = some w ∧
        getRefcnt (PyUpb_ObjCache_Get rt k).2 w = getRefcnt rt w + 1 ∧
        ∀ o, o ≠ w →
          getRefcnt (PyUpb_ObjCache_Get rt k).2 o = getRefcnt rt o) ∧
    (upb_inttable_lookup rt.state.obj_cache k = none →
        PyUpb_ObjCache_Get rt k = (none, rt)) := by
  constructor
  · intro w hw
    rw [get_hit rt k w hw]
    refine ⟨rfl, ?_, ?_⟩
    · simp [Py_INCREF, getRefcnt]
    · intro o ho
      have hb : (w == o) = false := by simp [Ne.symm ho]
      simp [Py_INCREF, getRefcnt, hb]
  · intro hn
    exact get_miss rt k hn

/-- Witness for C2 at a concrete one-entry cache. -/
theorem objCache_get_contract_witness :
    (PyUpb_ObjCache_Get
        { state := { obj_cache := ⟨[(5, 42)]⟩, obj_cache_arena := 1 },
          refcnt := [] } 5).1 = some 42 ∧
    getRefcnt (PyUpb_ObjCache_Get
        { state := { obj_cache := ⟨[(5, 42)]⟩, obj_cache_arena := 1 },
          refcnt := [] } 5).2 42 = 1 :=
  ⟨((objCache_get_contract
      { state := { obj_cache := ⟨[(5, 42)]⟩, obj_cache_arena := 1 },
        refcnt := [] } 5).1 42 (by decide)).1,
   ((objCache_get_contract
      { state := { obj_cache := ⟨[(5, 42)]⟩, obj_cache_arena := 1 },
        refcnt := [] } 5).1 42 (by decide)).2.1⟩

/-- C3: Add/Get round trip — once `PyUpb_ObjCache_Add k w` returns
successfully, every subsequent `PyUpb_ObjCache_Get k` returns exactly `w`, as
long as no intervening `remove k` occurred (and all intervening operations
met their preconditions); in particular the insertion is visible immediately
(the empty intervening sequence). -/
theorem objCache_add_get_roundtrip (rt rt1 rt2 : PyRuntime) (k w : Ptr)
    (ops : List CacheOp)
    (hadd : PyUpb_ObjCache_Add rt k w = some rt1)
    (hrun : runOps rt1 ops = some rt2)
    (hnr : CacheOp.remove k ∉ ops) :
    (PyUpb_ObjCache_Get rt2 k).1 = some w := by
  rw [add_eq_some_iff] at hadd
  obtain ⟨hnone, rfl⟩ := hadd
  have h1 : upb_inttable_lookup
      (⟨(k, w) :: rt.state.obj_cache.entries⟩ : upb_inttable) k = some w :=
    lookup_cons_self k w rt.state.obj_cache.entries
  have h2 := runOps_preserves_lookup_some ops _ rt2 k w h1 hrun hnr
  rw [get_hit rt2 k w h2]

/-- Witness for C3: add at address 7, run an unrelated Get, then look 7 up. -/
theorem objCache_add_get_roundtrip_witness :
    (PyUpb_ObjCache_Get
      { state := { obj_cache := ⟨[(5, 42), (7, 9)]⟩, obj_cache_arena := 1 },
        refcnt := [(42, 1)] } 7).1 = some 9 :=
  objCache_add_get_roundtrip
    { state := { obj_cache := ⟨[]⟩, obj_cache_arena := 1 }, refcnt := [] }
    { state := { obj_cache := ⟨[(7, 9)]⟩, obj_cache_arena := 1 }, refcnt := [] }
    { state := { obj_cache := ⟨[(5, 42), (7, 9)]⟩, obj_cache_arena := 1 },
      refcnt := [(42, 1)] }
    7 9 [.add 5 42, .get 5]
    (by decide) (by decide) (by decide)

/-- C4: Remove/Get round trip — from a state with unique keys, once
`PyUpb_ObjCache_Delete k` returns successfully (so a live entry existed),
every subsequent `PyUpb_ObjCache_Get k` returns `NULL`, as long as no
intervening `add k` occurred and all intervening operations met their
preconditions. -/
theorem objCache_remove_get_roundtrip (rt rt1 rt2 : PyRuntime) (k : Ptr)
    (ops : List CacheOp)
    (hinv : cacheKeysUnique rt.state.obj_cache)
    (hdel : PyUpb_ObjCache_Delete rt k = some rt1)
    (hrun : runOps rt1 ops = some rt2)
    (hna : ∀ w, CacheOp.add k w ∉ ops) :
    (PyUpb_ObjCache_Get rt2 k).1 = none := by
  rw [delete_eq_some_iff] at hdel
  obtain ⟨v, hv, hv0, rfl⟩ := hdel
  have h1 : upb_inttable_lookup
      (⟨rt.state.obj_cache.entries.eraseP (fun e => e.1 == k)⟩ : upb_inttable) k
        = none :=
    lookup_eraseP_self_of_nodup rt.state.obj_cache.entries k hinv
  have h2 := runOps_preserves_lookup_none ops _ rt2 k h1 hrun hna
  rw [get_miss rt2 k h2]

/-- Witness for C4: delete the only entry for 5, then look 5 up. -/
theorem objCache_remove_get_roundtrip_witness :
    (PyUpb_ObjCache_Get
      { state := { obj_cache := ⟨[]⟩, obj_cache_arena := 1 },
        refcnt := [] } 5).1 = none :=
  objCache_remove_get_roundtrip
    { state := { obj_cache := ⟨[(5, 42)]⟩, obj_cache_arena := 1 }, refcnt := [] }
    { state := { obj_cache := ⟨[]⟩, obj_cache_arena := 1 }, refcnt := [] }
    { state := { obj_cache := ⟨[]⟩, obj_cache_arena := 1 }, refcnt := [] }
    5 [] (by unfold cacheKeysUnique; decide) (by decide) (by decide)
    (fun w => List.not_mem_nil _)

/-- C5: Remove of a missing key is fatal — when no entry exists for `k`,
`PyUpb_ObjCache_Delete k` halts at its assertion (result `none`) instead of
returning normally. -/
theorem objCache_delete_missing_asserts (rt : PyRuntime) (k : Ptr)
    (h : upb_inttable_lookup rt.state.obj_cache k = none) :
    PyUpb_ObjCache_Delete rt k = none := by
  unfold PyUpb_ObjCache_Delete upb_inttable_remove
  rw [h]
  simp [upb_value_getptr]

/-- Witness for C5: deleting address 7 from the freshly initialized cache. -/
theorem objCache_delete_missing_asserts_witness :
    upb_inttable_lookup initRuntime.state.obj_cache 7 = none ∧
      PyUpb_ObjCache_Delete initRuntime 7 = none :=
  ⟨by decide, objCache_delete_missing_asserts initRuntime 7 (by decide)⟩

/-- C6: Duplicate Add halts — when a live entry for `k` already maps to `w1`,
a second `PyUpb_ObjCache_Add k w2` halts at the insert's internal-consistency
assertion (result `none`) instead of silently overwriting `w1` with `w2`. -/
theorem objCache_add_duplicate_asserts (rt : PyRuntime) (k w1 w2 : Ptr)
    (h : upb_inttable_lookup rt.state.obj_cache k = some w1) :
    PyUpb_ObjCache_Add rt k w2 = none := by
  unfold PyUpb_ObjCache_Add upb_inttable_insert
  rw [h]

/-- Witness for C6: re-adding address 5, which is live with wrapper 42. -/
theorem objCache_add_duplicate_asserts_witness :
    upb_inttable_lookup
        ({ state := { obj_cache := ⟨[(5, 42)]⟩, obj_cache_arena := 1 },
           refcnt := [] } : PyRuntime).state.obj_cache 5 = some 42 ∧
      PyUpb_ObjCache_Add
        { state := { obj_cache := ⟨[(5, 42)]⟩, obj_cache_arena := 1 },
          refcnt := [] } 5 99 = none :=
  ⟨by decide,
   objCache_add_duplicate_asserts
     { state := { obj_cache := ⟨[(5, 42)]⟩, obj_cache_arena := 1 },
       refcnt := [] } 5 42 99 (by decide)⟩

/-- C7: Arena ownership — `PyUpb_Arena_New` returns a wrapper holding a
freshly created native arena (the allocator's next handle, not previously
handed out) and frees nothing; `PyUpb_Arena_Dealloc` of that wrapper frees
exactly that arena exactly once and no other arena; and the only other free
site, `PyUpb_ModuleDealloc`, frees only the module's cache-storage arena,
never this wrapper's arena. -/
theorem arena_exclusive_ownership (w : ArenaWorld) (s : PyUpb_ModuleState)
    (hs : s.obj_cache_arena ≠ w.next) :
    PyUpb_Arena_Get (PyUpb_Arena_New w).1 = w.next ∧
    (PyUpb_Arena_New w).2.next = w.next + 1 ∧
    (PyUpb_Arena_New w).2.freed = w.freed ∧
    (PyUpb_Arena_Dealloc (PyUpb_Arena_New w).2 (PyUpb_Arena_New w).1).freed.count
        w.next = w.freed.count w.next + 1 ∧
    (∀ a, a ≠ w.next →
      (PyUpb_Arena_Dealloc (PyUpb_Arena_New w).2 (PyUpb_Arena_New w).1).freed.count
          a = w.freed.count a) ∧
    (PyUpb_ModuleDealloc (PyUpb_Arena_New w).2 s).freed.count w.next
      = w.freed.count w.next := by
  refine ⟨rfl, rfl, rfl, ?_, ?_, ?_⟩
  · show ((w.next : Nat) :: w.freed).count w.next = w.freed.count w.next + 1
    rw [List.count_cons_self]
  · intro a ha
    show ((w.next : Nat) :: w.freed).count a = w.freed.count a
    rw [List.count_cons_of_ne (Ne.symm ?_)]
    exact fun he => ha he.symm
  · show ((s.obj_cache_arena : Nat) :: w.freed).count w.next
      = w.freed.count w.next
    rw [List.count_cons_of_ne (Ne.symm hs)]

/-- Witness for C7 at the empty allocator world and a module whose cache
arena is handle 5. -/
theorem arena_exclusive_ownership_witness :
    PyUpb_Arena_Get (PyUpb_Arena_New ⟨0, []⟩).1 = 0 ∧
      (PyUpb_Arena_Dealloc (PyUpb_Arena_New ⟨0, []⟩).2
          (PyUpb_Arena_New ⟨0, []⟩).1).freed.count 0
        = ([] : List Nat).count 0 + 1 :=
  ⟨(arena_exclusive_ownership ⟨0, []⟩ ⟨⟨[]⟩, 5⟩ (by decide)).1,
   (arena_exclusive_ownership ⟨0, []⟩ ⟨⟨[]⟩, 5⟩ (by decide)).2.2.2.1⟩

/-- C8: Module-load failure atomicity — if any registration step of
`PyInit__message` fails, it returns `NULL` instead of a module, and the
storage arena allocated during the attempt is freed exactly once as part of
releasing the partial state. -/
theorem pyinit_failure_atomicity (w : ArenaWorld) (inits : InitResults)
    (h : (inits.descriptorContainers && inits.descriptorPool &&
          inits.descriptor && inits.arena) = false) :
    (PyInit__message w inits).1 = none ∧
    (PyInit__message w inits).2.freed.count w.next
      = w.freed.count w.next + 1 := by
  unfold PyInit__message
  rw [h]
  refine ⟨rfl, ?_⟩
  show ((w.next : Nat) :: w.freed).count w.next = w.freed.count w.next + 1
  rw [List.count_cons_self]

/-- Witness for C8: the arena-type registration step fails. -/
theorem pyinit_failure_atomicity_witness :
    (PyInit__message ⟨0, []⟩ ⟨true, true, true, false⟩).1 = none ∧
      (PyInit__message ⟨0, []⟩ ⟨true, true, true, false⟩).2.freed.count 0
        = ([] : List Nat).count 0 + 1 :=
  pyinit_failure_atomicity ⟨0, []⟩ ⟨true, true, true, false⟩ (by decide)

/-- C9: Forbidden constructor — for every class and argument list,
`PyUpb_Forbidden_New` returns `NULL`, raises a host exception whose message
names the offending type, and leaves the runtime state (cache included)
completely unchanged. -/
theorem forbidden_new_contract (rt : PyRuntime) (cls : PyClass)
    (args kwds : List Ptr) :
    (PyUpb_Forbidden_New rt cls args kwds).1 = none ∧
    (PyUpb_Forbidden_New rt cls args kwds).2.1.raised =
      some ("Objects of type " ++ cls.name ++ " may not be created directly.") ∧
    (PyUpb_Forbidden_New rt cls args kwds).2.2 = rt :=
  ⟨rfl, rfl, rfl⟩

/-- C10: Get is read-only on the cache — `PyUpb_ObjCache_Get` leaves the
whole module state (in particular the cache mapping) unchanged; on a miss it
changes nothing at all, and the only reference count it may touch is that of
the wrapper it returns. -/
theorem objCache_get_readonly (rt : PyRuntime) (k : Ptr) :
    (PyUpb_ObjCache_Get rt k).2.state.obj_cache = rt.state.obj_cache ∧
    (PyUpb_ObjCache_Get rt k).2.state = rt.state ∧
    ((PyUpb_ObjCache_Get rt k).1 = none → (PyUpb_ObjCache_Get rt k).2 = rt) ∧
    (∀ o : Ptr, (PyUpb_ObjCache_Get rt k).1 ≠ some o →
      getRefcnt (PyUpb_ObjCache_Get rt k).2 o = getRefcnt rt o) := by
  refine ⟨by rw [get_snd_state], get_snd_state rt k, ?_, ?_⟩
  · intro hmiss
    cases hv : upb_inttable_lookup rt.state.obj_cache k with
    | none => rw [get_miss rt k hv]
    | some v =>
      rw [get_hit rt k v hv] at hmiss
      cases hmiss
  · intro o ho
    cases hv : upb_inttable_lookup rt.state.obj_cache k with
    | none => rw [get_miss rt k hv]
    | some v =>
      rw [get_hit rt k v hv] at ho ⊢
      have hov : (v == o) = false := by
        simp only [beq_eq_false_iff_ne, ne_eq]
        intro he
        exact ho (by rw [he])
      simp [Py_INCREF, getRefcnt, hov]

/-- Witness for C10 at a concrete miss and a concrete unrelated object. -/
theorem objCache_get_readonly_witness :
    (PyUpb_ObjCache_Get
        { state := { obj_cache := ⟨[(5, 42)]⟩, obj_cache_arena := 1 },
          refcnt := [] } 9).2
      = { state := { obj_cache := ⟨[(5, 42)]⟩, obj_cache_arena := 1 },
          refcnt := [] } ∧
    getRefcnt (PyUpb_ObjCache_Get
        { state := { obj_cache := ⟨[(5, 42)]⟩, obj_cache_arena := 1 },
          refcnt := [] } 9).2 3
      = getRefcnt
          { state := { obj_cache := ⟨[(5, 42)]⟩, obj_cache_arena := 1 },
            refcnt := [] } 3 :=
  ⟨(objCache_get_readonly
      { state := { obj_cache := ⟨[(5, 42)]⟩, obj_cache_arena := 1 },
        refcnt := [] } 9).2.2.1 (by decide),
   (objCache_get_readonly
      { state := { obj_cache := ⟨[(5, 42)]⟩, obj_cache_arena := 1 },
        refcnt := [] } 9).2.2.2 3 (by decide)⟩

end Protobuf
